import Mathlib

set_option maxHeartbeats 1000000
set_option maxRecDepth 4000

/-!
Shallow embedding of the four Playwright verification scripts of this repository:
src/fatum-mark2/verify_frontend.py, src/verification/verify_editor.py,
src/verification/verify_ui.py and src/verification/verify.py.

Each script is a straight line of browser operations; an operation can raise a
Python exception (element missing, wait timed out, assertion failed, launch
failure, ...).  Whether a given operation raises is not decided by the scripts
but by the browser, the page under test and the filesystem, so the embedding
takes an environment of oracles: one outcome stream for operations addressed to
the application page, one for everything local (engine launch, page creation,
file writes, pages loaded from file URLs).  A run yields the ordered trace of
events the script produced (operations performed, failed operation, printed
lines, the explicit browser close) together with a flag recording whether an
exception escaped the function.
-/

/-- A browser-level operation issued by one of the scripts.  Constructors carry
the literal selector / payload strings of the Python source. -/
inductive BAction where
  | launch
  | newPage
  | goto (url : String)
  | click (sel : String)
  | clickHasText (sel : String) (txt : String)
  | fill (sel : String) (value : String)
  | check (sel : String)
  | hover (sel : String)
  | waitSel (sel : String) (state : Option String)
  | waitFn (expr : String)
  | waitLoc (sel : String) (timeoutMs : Nat)
  | titleAssert (needle : String)
  | visAssert (sel : String)
  | countAssertGe (sel : String) (n : Nat)
  | shot (path : String) (fullPage : Bool)
  | writeFile (path : String) (content : String)
  deriving DecidableEq

/-- One observable event of a run. -/
inductive Event where
  | did (a : BAction)
  | failed (a : BAction)
  | printed (msg : String)
  | slept (ms : Nat)
  | errPrinted
  | closed
  deriving DecidableEq

/-- Outcome stream for one side of the world: whether the i-th operation
addressed to it succeeds, which value the i-th count query returns, and how
many DOM elements the i-th operation's locator resolved to.  The scripts never
read `matchCount`; it is part of the environment so that statements about
multiple matching elements can be made. -/
structure Oracle where
  ok : Nat → Bool
  count : Nat → Nat
  matchCount : Nat → Nat

/-- The environment of a run: `loc` answers local operations (engine launch,
page creation, file writes, pages loaded from file URLs), `app` answers
operations addressed to the application page reached over HTTP. -/
structure Env where
  loc : Oracle
  app : Oracle

/-- Interpreter state: trace so far, position in each oracle stream, whether
the current page is the HTTP-served application, and whether an exception is
propagating. -/
structure RunState where
  trace : List Event
  localIdx : Nat
  appIdx : Nat
  onApp : Bool
  raised : Bool
  deriving DecidableEq

def initState : RunState :=
  { trace := [], localIdx := 0, appIdx := 0, onApp := false, raised := false }

/-- Whether a URL addresses the HTTP-served application (scheme is http). -/
def isHttpUrl (u : String) : Bool :=
  match u.data with
  | 'h' :: 't' :: 't' :: 'p' :: _ => true
  | _ => false

/-- Whether an operation is answered by the application-page oracle: page
operations are whenever the current page is the application; navigation is
decided by its target URL; launch, page creation and file writes are local. -/
def actUsesApp (st : RunState) : BAction → Bool
  | .launch => false
  | .newPage => false
  | .writeFile _ _ => false
  | .goto url => isHttpUrl url
  | _ => st.onApp

/-- The count bound demanded by an operation, if it is a count assertion. -/
def actCountReq : BAction → Option Nat
  | .countAssertGe _ n => some n
  | _ => none

/-- Whether the operation succeeds in the given state: the oracle must answer
true, and a count assertion additionally needs the queried count to reach its
bound (a Python assert on the returned value). -/
def actOk (env : Env) (st : RunState) (a : BAction) : Bool :=
  let okF := if actUsesApp st a then env.app.ok else env.loc.ok
  let cntF := if actUsesApp st a then env.app.count else env.loc.count
  let idx := if actUsesApp st a then st.appIdx else st.localIdx
  match actCountReq a with
  | some n => okF idx && decide (n ≤ cntF idx)
  | none => okF idx

/-- Perform one operation: append the corresponding event, advance the used
oracle stream, update the current-page flag on navigation, and raise on
failure. -/
def stepAct (env : Env) (st : RunState) (a : BAction) : RunState :=
  { trace := st.trace ++ [if actOk env st a then Event.did a else Event.failed a]
    localIdx := if actUsesApp st a then st.localIdx else st.localIdx + 1
    appIdx := if actUsesApp st a then st.appIdx + 1 else st.appIdx
    onApp := match a with
      | .goto url => isHttpUrl url
      | _ => st.onApp
    raised := st.raised || !actOk env st a }

/-- One source line of a script body: a browser operation, a print, or a
sleep. -/
inductive Item where
  | act (a : BAction)
  | print (msg : String)
  | sleep (ms : Nat)
  deriving DecidableEq

/-- Run the items in order.  A raised exception skips everything after it,
mirroring Python exception propagation through a straight-line block. -/
def runItems (env : Env) : List Item → RunState → RunState
  | [], st => st
  | it :: rest, st =>
    if st.raised then st
    else
      match it with
      | .act a => runItems env rest (stepAct env st a)
      | .print m => runItems env rest { st with trace := st.trace ++ [Event.printed m] }
      | .sleep ms => runItems env rest { st with trace := st.trace ++ [Event.slept ms] }

/-- The events a list of items produces when every operation succeeds. -/
def okEvents : List Item → List Event
  | [] => []
  | .act a :: r => Event.did a :: okEvents r
  | .print m :: r => Event.printed m :: okEvents r
  | .sleep ms :: r => Event.slept ms :: okEvents r

/-- Number of `closed` events (invocations of browser.close) in a trace. -/
def closeCount (t : List Event) : Nat :=
  t.countP fun e => match e with | Event.closed => true | _ => false

/-- Number of failed operations recorded in a trace. -/
def failCount (t : List Event) : Nat :=
  t.countP fun e => match e with | Event.failed _ => true | _ => false

/-- The messages printed by a run, in order. -/
def printedMsgs (t : List Event) : List String :=
  t.filterMap fun e => match e with | Event.printed m => some m | _ => none

/-- Paths of the screenshots a run captured. -/
def shotsDone (t : List Event) : List String :=
  t.filterMap fun e => match e with
    | Event.did (BAction.shot p _) => some p
    | _ => none

/-- Paths of the screenshots a run attempted, captured or not. -/
def shotEvents (t : List Event) : List String :=
  t.filterMap fun e => match e with
    | Event.did (BAction.shot p _) => some p
    | Event.failed (BAction.shot p _) => some p
    | _ => none

/-- The browser operations of a script body, in order. -/
def actionsOf (items : List Item) : List BAction :=
  items.filterMap fun it => match it with | .act a => some a | _ => none

/-- The URLs a script navigates to, in order. -/
def gotoUrls (items : List Item) : List String :=
  items.filterMap fun it => match it with
    | .act (.goto u) => some u
    | _ => none

/-- The print literals occurring in a script body, in order. -/
def printsOfItems (items : List Item) : List String :=
  items.filterMap fun it => match it with | .print m => some m | _ => none

/-- No count assertion occurs among the items. -/
def countFree (items : List Item) : Bool :=
  items.all fun it => match it with
    | .act a => (actCountReq a).isNone
    | _ => true

/-- Ordered-subsequence test on action lists. -/
def isSubseqB : List BAction → List BAction → Bool
  | [], _ => true
  | _ :: _, [] => false
  | a :: l, b :: m => if a = b then isSubseqB l m else isSubseqB (a :: l) m

/-- The script reaches pages only by navigating to the observed HTTP base URLs
and never writes files of its own. -/
def httpOnlyInteraction (items : List Item) : Bool :=
  items.all fun it => match it with
    | .act (.goto u) => (u == "http://localhost:3000") || (u == "http://127.0.0.1:3000")
    | .act (.writeFile _ _) => false
    | _ => true

/-!
The four scripts.  Item lists transcribe the Python sources line by line;
`browser.close()` is not an item: it is placed exactly where the source places
it in control flow (after the body, reached only when no exception is
propagating — only verify_ui wraps its body in try/except/finally).
-/

/-- Argument of page.wait_for_function in fatum-mark2/verify_frontend.py. -/
def fsWaitExpr : String :=
  "document.getElementById(\x27fs-output\x27).innerText.includes(\x27QUANTUM FENG SHUI ANALYSIS\x27)"

/-- fatum-mark2/verify_frontend.py, lines up to the feng-shui screenshot. -/
def frontendFengShuiPart : List Item :=
  [ .act .launch
  , .act .newPage
  , .act (.goto "http://localhost:3000")
  , .print "Checking title..."
  , .act (.titleAssert "FATUM MARK 2")
  , .print "Checking tabs..."
  , .act (.click "button[onclick=\"showTab(\x27profiles\x27)\"]")
  , .act (.waitSel "#tab-profiles" (some "visible"))
  , .act (.click "button[onclick=\"showTab(\x27fengshui\x27)\"]")
  , .act (.waitSel "#tab-fengshui" (some "visible"))
  , .print "Running Feng Shui simulation..."
  , .act (.fill "#fs-year" "2024")
  , .act (.fill "#fs-facing" "180")
  , .act (.fill "#fs-intention" "Test Wealth")
  , .act (.check "#fs-quantum")
  , .act (.click "button[onclick=\"runFengShui()\"]")
  , .act (.waitFn fsWaitExpr)
  , .act (.shot "/home/jules/verification/feng_shui_dashboard.png" false)
  , .print "Captured Feng Shui Dashboard." ]

/-- fatum-mark2/verify_frontend.py, divination section. -/
def frontendDivinationPart : List Item :=
  [ .print "Running Divination..."
  , .act (.click "button[onclick=\"showTab(\x27divination\x27)\"]")
  , .act (.waitSel "#tab-divination" (some "visible"))
  , .act (.click "button[onclick=\"castHexagram()\"]")
  , .act (.waitSel "#divination-text h3" none)
  , .act (.shot "/home/jules/verification/divination_result.png" false)
  , .print "Captured Divination Result." ]

/-- Body of verify_frontend in src/fatum-mark2/verify_frontend.py. -/
def frontendItems : List Item := frontendFengShuiPart ++ frontendDivinationPart

/-- The final browser.close() of a script without try/finally: it executes
only when no exception is propagating. -/
def closeAfter (st : RunState) : RunState :=
  if st.raised then st else { st with trace := st.trace ++ [Event.closed] }

/-- The except/finally tail of verify_ui: a propagating body exception is
caught and printed, and the finally clause closes the browser in either
case. -/
def catchFinally (st : RunState) : RunState :=
  if st.raised then
    { st with trace := st.trace ++ [Event.errPrinted, Event.closed], raised := false }
  else { st with trace := st.trace ++ [Event.closed] }

/-- verify_frontend of src/fatum-mark2/verify_frontend.py: straight-line body,
browser.close() reached only when no step raised. -/
def verify_frontend (env : Env) : RunState :=
  closeAfter (runItems env frontendItems initState)

/-- Body of verify_visual_editor in src/verification/verify_editor.py. -/
def editorItems : List Item :=
  [ .act .launch
  , .act .newPage
  , .act (.goto "http://localhost:3000")
  , .act (.click "input[value=\x27visual\x27]")
  , .act (.visAssert "#dVisualInput")
  , .act (.click "button:has-text(\x27+ Add Node\x27)")
  , .act (.countAssertGe ".node-card" 2)
  , .act (.shot "verification/visual_editor.png" true) ]

/-- verify_visual_editor of src/verification/verify_editor.py: straight-line
body, browser.close() reached only when no step raised. -/
def verify_visual_editor (env : Env) : RunState :=
  closeAfter (runItems env editorItems initState)

/-- The try-block of verify_ui in src/verification/verify_ui.py. -/
def uiBody : List Item :=
  [ .act (.goto "http://127.0.0.1:3000")
  , .print "Checking Navigation..."
  , .act (.waitSel ".nav-group" (some "visible"))
  , .act (.shot "verification/1_nav_restructure.png" false)
  , .print "Checking Tooltips..."
  , .act (.hover "button[data-tooltip=\x27View Past Analysis Records\x27]")
  , .act (.waitLoc "#tooltip-box" 2000)
  , .act (.shot "verification/2_tooltip.png" false)
  , .print "Checking Sidebar..."
  , .act (.clickHasText "summary" "QUANTUM CONFIGURATION")
  , .sleep 500
  , .act (.shot "verification/3_sidebar_details.png" false)
  , .print "Verification Complete." ]

/-- All source lines of verify_ui as one list (launch and page creation
precede the try-block). -/
def uiItems : List Item := Item.act BAction.launch :: Item.act BAction.newPage :: uiBody

/-- verify_ui of src/verification/verify_ui.py: launch and new_page sit before
the try-block, the body's exceptions are caught by the broad except clause
which prints the error, and the finally clause closes the browser. -/
def verify_ui (env : Env) : RunState :=
  let st1 := stepAct env initState BAction.launch
  if st1.raised then st1
  else
    let st2 := stepAct env st1 BAction.newPage
    if st2.raised then st2
    else catchFinally (runItems env uiBody st2)

/-- The placeholder page verify.py writes. -/
def dummyHtml : String :=
  "\n        <html><body><h1>Verification Placeholder</h1><p>Frontend verification skipped due to environment limitations.</p></body></html>\n        "

/-- Body of verify_frontend in src/verification/verify.py (named after its
source file since its Python name collides with the fatum-mark2 script). -/
def pyItems : List Item :=
  [ .act .launch
  , .act .newPage
  , .act (.writeFile "verification/dummy.html" dummyHtml)
  , .act (.goto "file:///app/verification/dummy.html")
  , .act (.shot "verification/verification.png" false) ]

/-- verify_frontend of src/verification/verify.py: writes its own placeholder
page, navigates to it by file URL, screenshots it and closes. -/
def verify_py (env : Env) : RunState :=
  closeAfter (runItems env pyItems initState)

/-- The catalog of scenarios present under src/, named by script. -/
def scenarioCatalog : List (String × List Item) :=
  [ ("verify_frontend", frontendItems)
  , ("verify_visual_editor", editorItems)
  , ("verify_ui", uiItems)
  , ("verify_frontend of verify.py", pyItems) ]

/-- An environment side on which every operation succeeds. -/
def oracleAll : Oracle := { ok := fun _ => true, count := fun _ => 2, matchCount := fun _ => 1 }

/-- Every operation of the run succeeds. -/
def envAllOk : Env := { loc := oracleAll, app := oracleAll }

/-- Every oracle answer of the environment is a success. -/
def allOk (env : Env) : Prop :=
  (∀ i, env.loc.ok i = true) ∧ (∀ i, env.app.ok i = true)

/-- Everything succeeds except the feng-shui wait_for_function (the 12th
application-page operation of verify_frontend). -/
def envFrontendWaitFail : Env :=
  { loc := oracleAll
  , app := { ok := fun i => !(i == 11), count := fun _ => 2, matchCount := fun _ => 1 } }

/-- Everything succeeds except the divination wait_for_selector (the 17th
application-page operation of verify_frontend). -/
def envDivinationWaitFail : Env :=
  { loc := oracleAll
  , app := { ok := fun i => !(i == 16), count := fun _ => 2, matchCount := fun _ => 1 } }

/-- Everything succeeds except the tooltip wait (the 5th application-page
operation of verify_ui), which times out. -/
def envUiWaitFail : Env :=
  { loc := oracleAll
  , app := { ok := fun i => !(i == 4), count := fun _ => 2, matchCount := fun _ => 1 } }

/-- Everything succeeds; the Add-Node click of verify_visual_editor (its 4th
application-page operation) resolves to two elements. -/
def envEditorAmbiguous : Env :=
  { loc := oracleAll
  , app := { ok := fun _ => true, count := fun _ => 5, matchCount := fun i => if i == 3 then 2 else 1 } }

/-- Launching the browser engine fails. -/
def envLaunchFail : Env :=
  { loc := { ok := fun i => !(i == 0), count := fun _ => 2, matchCount := fun _ => 1 }
  , app := oracleAll }

/-- A state of the node editor around the Add-Node click: how many node cards
the page shows before the click and how many after it. -/
structure EditorWorld where
  cardsBeforeAdd : Nat
  cardsAfterAdd : Nat

/-- The environment an editor world induces on verify_visual_editor: every
operation succeeds and the single count query, issued after the Add-Node
click, returns the post-add card count.  The pre-add count is never queried by
the script. -/
def editorEnvOf (w : EditorWorld) : Env :=
  { loc := { ok := fun _ => true, count := fun _ => 0, matchCount := fun _ => 1 }
  , app := { ok := fun _ => true, count := fun _ => w.cardsAfterAdd, matchCount := fun _ => 1 } }

/-- Reading of claim C6: a passing run of verify_visual_editor implies the
node-card count increased across the Add-Node click. -/
def editorAssertsIncrease : Prop :=
  ∀ w : EditorWorld,
    (verify_visual_editor (editorEnvOf w)).raised = false → w.cardsBeforeAdd < w.cardsAfterAdd

/-- The feng-shui interaction sequence named by claim C4. -/
def fengShuiActions : List BAction :=
  [ .fill "#fs-year" "2024"
  , .fill "#fs-facing" "180"
  , .check "#fs-quantum"
  , .click "button[onclick=\"runFengShui()\"]"
  , .waitFn fsWaitExpr ]

/-!
Spec-modelled material for the decision-tree scenario.  No script under src/
exercises a tree-mode simulation, and the scenario-runner state machine of the
spec is not implemented there either; both are modelled from the spec's words
below and clearly marked as such.
-/

/-- Modelled from the spec: the per-step outcome tags of a Run Result
(section 3: status ok, timeout, not_found, error); the Run Result structure is
absent from src/. -/
inductive SpecStatus where
  | ok
  | timeout
  | notFound
  | err
  deriving DecidableEq

/-- Modelled from the spec: the terminal states of the scenario-runner state
machine (section 4.4); the runner is absent from src/. -/
inductive SpecFinal where
  | Completed
  | Aborted
  deriving DecidableEq

/-- Modelled from the spec: the step kinds the decision-tree catalog entry
uses (sections 4.6 and 8); the flow is absent from src/. -/
inductive SpecAction where
  | navigate (url : String)
  | setInputMode (mode : String)
  | loadExampleTemplate
  | triggerSimulation
  | assertTextContains (region : String) (needle : String)
  | screenshotFullPage (path : String)
  deriving DecidableEq

/-- Modelled from the spec: a Step carries its action, its timeout in
milliseconds and its on-failure policy (section 3); absent from src/. -/
structure SpecStep where
  action : SpecAction
  timeoutMs : Nat
  abortOnFailure : Bool
  deriving DecidableEq

/-- Modelled from the spec: the decision-tree catalog entry (sections 4.6 and
8): navigate to the app, switch to tree input mode, load the example template,
trigger simulation, await a result region containing "Winner:" within
10000 ms, capture a full-page screenshot.  Steps default to abort-on-failure
(section 7); absent from src/. -/
def decisionTreeFlow : List SpecStep :=
  [ { action := SpecAction.navigate "http://localhost:3000", timeoutMs := 30000, abortOnFailure := true }
  , { action := SpecAction.setInputMode "tree", timeoutMs := 30000, abortOnFailure := true }
  , { action := SpecAction.loadExampleTemplate, timeoutMs := 30000, abortOnFailure := true }
  , { action := SpecAction.triggerSimulation, timeoutMs := 30000, abortOnFailure := true }
  , { action := SpecAction.assertTextContains "result region" "Winner:", timeoutMs := 10000, abortOnFailure := true }
  , { action := SpecAction.screenshotFullPage "verification/decision_tree.png", timeoutMs := 30000, abortOnFailure := true } ]

/-- Modelled from the spec: the scenario-runner state machine (section 4.4):
steps execute in order, each outcome is recorded; a non-ok outcome on an
abort-policy step ends the run as Aborted keeping the outcomes so far,
otherwise the run continues and ends Completed after the last step; absent
from src/. -/
def runSpecScenario (env : Nat → SpecStatus) : List SpecStep → Nat → List SpecStatus × SpecFinal
  | [], _ => ([], SpecFinal.Completed)
  | s :: rest, i =>
    let o := env i
    if (o = SpecStatus.ok : Bool) || !s.abortOnFailure then
      let r := runSpecScenario env rest (i + 1)
      (o :: r.1, r.2)
    else ([o], SpecFinal.Aborted)

/-!
Structural lemmas about the interpreter.
-/

theorem runItems_skip (env : Env) (items : List Item) (st : RunState) (h : st.raised = true) :
    runItems env items st = st := by
  cases items with
  | nil => rfl
  | cons it rest => unfold runItems; rw [h]; simp

theorem runItems_cons_act (env : Env) (a : BAction) (rest : List Item) (st : RunState)
    (h : st.raised = false) :
    runItems env (Item.act a :: rest) st = runItems env rest (stepAct env st a) := by
  have he : runItems env (Item.act a :: rest) st =
      if st.raised then st else runItems env rest (stepAct env st a) := rfl
  rw [he, h]
  simp

theorem runItems_cons_print (env : Env) (m : String) (rest : List Item) (st : RunState)
    (h : st.raised = false) :
    runItems env (Item.print m :: rest) st =
      runItems env rest { st with trace := st.trace ++ [Event.printed m] } := by
  have he : runItems env (Item.print m :: rest) st =
      if st.raised then st
      else runItems env rest { st with trace := st.trace ++ [Event.printed m] } := rfl
  rw [he, h]
  simp

theorem runItems_cons_sleep (env : Env) (ms : Nat) (rest : List Item) (st : RunState)
    (h : st.raised = false) :
    runItems env (Item.sleep ms :: rest) st =
      runItems env rest { st with trace := st.trace ++ [Event.slept ms] } := by
  have he : runItems env (Item.sleep ms :: rest) st =
      if st.raised then st
      else runItems env rest { st with trace := st.trace ++ [Event.slept ms] } := rfl
  rw [he, h]
  simp

theorem stepAct_trace (env : Env) (st : RunState) (a : BAction) :
    (stepAct env st a).trace =
      st.trace ++ [if actOk env st a then Event.did a else Event.failed a] := rfl

theorem stepAct_raised (env : Env) (st : RunState) (a : BAction) :
    (stepAct env st a).raised = (st.raised || !actOk env st a) := rfl

theorem closeCount_append (t u : List Event) :
    closeCount (t ++ u) = closeCount t + closeCount u := by
  simp [closeCount, List.countP_append]

theorem failCount_append (t u : List Event) :
    failCount (t ++ u) = failCount t + failCount u := by
  simp [failCount, List.countP_append]

theorem printedMsgs_append (t u : List Event) :
    printedMsgs (t ++ u) = printedMsgs t ++ printedMsgs u := by
  simp [printedMsgs]

theorem printsOfItems_append (l m : List Item) :
    printsOfItems (l ++ m) = printsOfItems l ++ printsOfItems m := by
  simp [printsOfItems]

theorem runItems_closeCount (env : Env) :
    ∀ (items : List Item) (st : RunState),
      closeCount (runItems env items st).trace = closeCount st.trace := by
  intro items
  induction items with
  | nil => intro st; rfl
  | cons it rest ih =>
    intro st
    by_cases h : st.raised = true
    · rw [runItems_skip env _ st h]
    · have h' : st.raised = false := by simpa using h
      cases it with
      | act a =>
        rw [runItems_cons_act env a rest st h', ih, stepAct_trace, closeCount_append]
        cases hA : actOk env st a <;> simp [closeCount]
      | print m =>
        rw [runItems_cons_print env m rest st h', ih]
        simp [closeCount_append, closeCount]
      | sleep ms =>
        rw [runItems_cons_sleep env ms rest st h', ih]
        simp [closeCount_append, closeCount]

theorem runItems_trace_mono (env : Env) :
    ∀ (items : List Item) (st : RunState), ∃ t, (runItems env items st).trace = st.trace ++ t := by
  intro items
  induction items with
  | nil => intro st; exact ⟨[], by simp [runItems]⟩
  | cons it rest ih =>
    intro st
    by_cases h : st.raised = true
    · exact ⟨[], by rw [runItems_skip env _ st h]; simp⟩
    · have h' : st.raised = false := by simpa using h
      cases it with
      | act a =>
        obtain ⟨t, ht⟩ := ih (stepAct env st a)
        refine ⟨(if actOk env st a then Event.did a else Event.failed a) :: t, ?_⟩
        rw [runItems_cons_act env a rest st h', ht, stepAct_trace]
        simp
      | print m =>
        obtain ⟨t, ht⟩ := ih { st with trace := st.trace ++ [Event.printed m] }
        refine ⟨Event.printed m :: t, ?_⟩
        rw [runItems_cons_print env m rest st h', ht]
        simp
      | sleep ms =>
        obtain ⟨t, ht⟩ := ih { st with trace := st.trace ++ [Event.slept ms] }
        refine ⟨Event.slept ms :: t, ?_⟩
        rw [runItems_cons_sleep env ms rest st h', ht]
        simp

theorem runItems_ok_trace (env : Env) :
    ∀ (items : List Item) (st : RunState), st.raised = false →
      (runItems env items st).raised = false →
      (runItems env items st).trace = st.trace ++ okEvents items := by
  intro items
  induction items with
  | nil => intro st h0 _; simp [runItems, okEvents]
  | cons it rest ih =>
    intro st h0 hr
    cases it with
    | act a =>
      rw [runItems_cons_act env a rest st h0] at hr ⊢
      by_cases hA : actOk env st a = true
      · have hs : (stepAct env st a).raised = false := by
          rw [stepAct_raised, h0, hA]; rfl
        rw [ih (stepAct env st a) hs hr, stepAct_trace]
        simp [okEvents, hA]
      · have hAx : actOk env st a = false := by simpa using hA
        have hs : (stepAct env st a).raised = true := by
          rw [stepAct_raised, h0, hAx]; rfl
        rw [runItems_skip env rest _ hs] at hr
        rw [hs] at hr
        cases hr
    | print m =>
      rw [runItems_cons_print env m rest st h0] at hr ⊢
      rw [ih { st with trace := st.trace ++ [Event.printed m] } h0 hr]
      simp [okEvents]
    | sleep ms =>
      rw [runItems_cons_sleep env ms rest st h0] at hr ⊢
      rw [ih { st with trace := st.trace ++ [Event.slept ms] } h0 hr]
      simp [okEvents]

theorem runItems_fail_decomp (env : Env) :
    ∀ (items : List Item) (st : RunState), st.raised = false →
      (runItems env items st).raised = true →
      ∃ pre a rest, items = pre ++ Item.act a :: rest ∧
        (runItems env items st).trace = st.trace ++ okEvents pre ++ [Event.failed a] := by
  intro items
  induction items with
  | nil =>
    intro st h0 hr
    rw [show runItems env [] st = st from rfl, h0] at hr
    cases hr
  | cons it rest ih =>
    intro st h0 hr
    cases it with
    | act a =>
      rw [runItems_cons_act env a rest st h0] at hr ⊢
      by_cases hA : actOk env st a = true
      · have hs : (stepAct env st a).raised = false := by
          rw [stepAct_raised, h0, hA]; rfl
        obtain ⟨pre, b, rest', heq, htr⟩ := ih (stepAct env st a) hs hr
        refine ⟨Item.act a :: pre, b, rest', by simp [heq], ?_⟩
        rw [htr, stepAct_trace]
        simp [okEvents, hA]
      · have hAx : actOk env st a = false := by simpa using hA
        have hs : (stepAct env st a).raised = true := by
          rw [stepAct_raised, h0, hAx]; rfl
        rw [runItems_skip env rest _ hs]
        refine ⟨[], a, rest, rfl, ?_⟩
        rw [stepAct_trace]
        simp [okEvents, hAx]
    | print m =>
      rw [runItems_cons_print env m rest st h0] at hr ⊢
      obtain ⟨pre, b, rest', heq, htr⟩ :=
        ih { st with trace := st.trace ++ [Event.printed m] } h0 hr
      refine ⟨Item.print m :: pre, b, rest', by simp [heq], ?_⟩
      rw [htr]
      simp [okEvents]
    | sleep ms =>
      rw [runItems_cons_sleep env ms rest st h0] at hr ⊢
      obtain ⟨pre, b, rest', heq, htr⟩ :=
        ih { st with trace := st.trace ++ [Event.slept ms] } h0 hr
      refine ⟨Item.sleep ms :: pre, b, rest', by simp [heq], ?_⟩
      rw [htr]
      simp [okEvents]

theorem actOk_of_countFree (env : Env) (hL : ∀ i, env.loc.ok i = true)
    (hA : ∀ i, env.app.ok i = true) (st : RunState) (a : BAction)
    (h : actCountReq a = none) : actOk env st a = true := by
  unfold actOk
  rw [h]
  by_cases hu : actUsesApp st a = true <;> simp [hu, hA, hL]

theorem runItems_allOk (env : Env) (hL : ∀ i, env.loc.ok i = true)
    (hA : ∀ i, env.app.ok i = true) :
    ∀ (items : List Item) (st : RunState), countFree items = true → st.raised = false →
      (runItems env items st).raised = false := by
  intro items
  induction items with
  | nil => intro st _ h0; exact h0
  | cons it rest ih =>
    intro st hcf h0
    cases it with
    | act a =>
      have hcf' : (actCountReq a).isNone = true ∧ countFree rest = true := by
        simpa [countFree] using hcf
      have hnone : actCountReq a = none := Option.isNone_iff_eq_none.mp hcf'.1
      have hok : actOk env st a = true := actOk_of_countFree env hL hA st a hnone
      have hs : (stepAct env st a).raised = false := by
        rw [stepAct_raised, h0, hok]; rfl
      rw [runItems_cons_act env a rest st h0]
      exact ih _ hcf'.2 hs
    | print m =>
      have hcf' : countFree rest = true := by simpa [countFree] using hcf
      rw [runItems_cons_print env m rest st h0]
      exact ih { st with trace := st.trace ++ [Event.printed m] } hcf' h0
    | sleep ms =>
      have hcf' : countFree rest = true := by simpa [countFree] using hcf
      rw [runItems_cons_sleep env ms rest st h0]
      exact ih { st with trace := st.trace ++ [Event.slept ms] } hcf' h0

theorem failCount_okEvents : ∀ items : List Item, failCount (okEvents items) = 0 := by
  intro items
  induction items with
  | nil => rfl
  | cons it rest ih => cases it <;> simpa [okEvents, failCount] using ih

theorem printedMsgs_okEvents : ∀ items : List Item, printedMsgs (okEvents items) = printsOfItems items := by
  intro items
  induction items with
  | nil => rfl
  | cons it rest ih => cases it <;> simpa [okEvents, printedMsgs, printsOfItems] using ih

theorem stepAct_matchCount_irrel (env : Env) (m : Nat → Nat) (st : RunState) (a : BAction) :
    stepAct { env with app := { env.app with matchCount := m } } st a = stepAct env st a := rfl

theorem runItems_matchCount_irrel (env : Env) (m : Nat → Nat) :
    ∀ (items : List Item) (st : RunState),
      runItems { env with app := { env.app with matchCount := m } } items st =
        runItems env items st := by
  intro items
  induction items with
  | nil => intro st; rfl
  | cons it rest ih =>
    intro st
    by_cases h : st.raised = true
    · rw [runItems_skip _ _ st h, runItems_skip _ _ st h]
    · have h' : st.raised = false := by simpa using h
      cases it with
      | act a =>
        rw [runItems_cons_act _ a rest st h', runItems_cons_act _ a rest st h',
          stepAct_matchCount_irrel, ih]
      | print m' =>
        rw [runItems_cons_print _ m' rest st h', runItems_cons_print _ m' rest st h', ih]
      | sleep ms =>
        rw [runItems_cons_sleep _ ms rest st h', runItems_cons_sleep _ ms rest st h', ih]

/-- The interpreter state after verify_ui's successful launch. -/
def uiAfterLaunch : RunState :=
  { trace := [Event.did BAction.launch], localIdx := 1, appIdx := 0, onApp := false, raised := false }

/-- The interpreter state after verify_ui's launch and new_page succeeded. -/
def uiStart : RunState :=
  { trace := [Event.did BAction.launch, Event.did BAction.newPage],
    localIdx := 2, appIdx := 0, onApp := false, raised := false }

theorem verify_ui_eq (env : Env) (h0 : env.loc.ok 0 = true) (h1 : env.loc.ok 1 = true) :
    verify_ui env = catchFinally (runItems env uiBody uiStart) := by
  have s1 : stepAct env initState BAction.launch = uiAfterLaunch := by
    have e : stepAct env initState BAction.launch =
        { trace := [if env.loc.ok 0 then Event.did BAction.launch else Event.failed BAction.launch],
          localIdx := 1, appIdx := 0, onApp := false, raised := !env.loc.ok 0 } := rfl
    rw [e, h0]
    simp [uiAfterLaunch]
  have s2 : stepAct env uiAfterLaunch BAction.newPage = uiStart := by
    have e : stepAct env uiAfterLaunch BAction.newPage =
        { trace := [Event.did BAction.launch,
            if env.loc.ok 1 then Event.did BAction.newPage else Event.failed BAction.newPage],
          localIdx := 2, appIdx := 0, onApp := false, raised := !env.loc.ok 1 } := rfl
    rw [e, h1]
    simp [uiStart]
  simp only [verify_ui, s1, s2]
  simp [uiAfterLaunch, uiStart]

theorem closeAfter_of_raised (st : RunState) (h : st.raised = true) : closeAfter st = st := by
  unfold closeAfter
  rw [h]
  simp

theorem closeAfter_of_ok (st : RunState) (h : st.raised = false) :
    closeAfter st = { st with trace := st.trace ++ [Event.closed] } := by
  unfold closeAfter
  rw [h]
  simp

theorem catchFinally_of_raised (st : RunState) (h : st.raised = true) :
    catchFinally st =
      { st with trace := st.trace ++ [Event.errPrinted, Event.closed], raised := false } := by
  unfold catchFinally
  rw [h]
  simp

theorem catchFinally_of_ok (st : RunState) (h : st.raised = false) :
    catchFinally st = { st with trace := st.trace ++ [Event.closed] } := by
  unfold catchFinally
  rw [h]
  simp

theorem catchFinally_raised (st : RunState) : (catchFinally st).raised = false := by
  by_cases h : st.raised = true
  · rw [catchFinally_of_raised st h]
  · have h' : st.raised = false := by simpa using h
    rw [catchFinally_of_ok st h']
    exact h'

theorem closeAfter_keeps_raised (st : RunState) : (closeAfter st).raised = st.raised := by
  by_cases h : st.raised = true
  · rw [closeAfter_of_raised st h]
  · have h' : st.raised = false := by simpa using h
    rw [closeAfter_of_ok st h']

theorem closeAfter_run_fail (env : Env) (items : List Item)
    (hf : 0 < failCount (closeAfter (runItems env items initState)).trace) :
    (closeAfter (runItems env items initState)).raised = true ∧
    ∃ t a, (closeAfter (runItems env items initState)).trace = t ++ [Event.failed a] := by
  have hst : (runItems env items initState).raised = true := by
    by_contra hx
    have hx' : (runItems env items initState).raised = false := by simpa using hx
    have ht := runItems_ok_trace env items initState rfl hx'
    rw [closeAfter_of_ok _ hx'] at hf
    have hf' : 0 < failCount ((runItems env items initState).trace ++ [Event.closed]) := hf
    rw [ht, failCount_append, failCount_append] at hf'
    have h1 : failCount (okEvents items) = 0 := failCount_okEvents items
    have h2 : failCount initState.trace = 0 := by decide
    have h3 : failCount [Event.closed] = 0 := by decide
    omega
  obtain ⟨pre, a, rest, hpre, htr⟩ := runItems_fail_decomp env items initState rfl hst
  rw [closeAfter_of_raised _ hst]
  exact ⟨hst, okEvents pre, a, by rw [htr]; simp [initState]⟩

/-!
Claims.
-/

/-- Claim C1, counterexample: in verify_frontend an execution that opened the
browser (launch and new_page succeeded) but whose feng-shui wait raised ends
with the exception propagating and browser.close() never invoked — close is
not invoked exactly once on every exit path. -/
theorem c1_counterexample :
    Event.did BAction.launch ∈ (verify_frontend envFrontendWaitFail).trace ∧
    Event.did BAction.newPage ∈ (verify_frontend envFrontendWaitFail).trace ∧
    (verify_frontend envFrontendWaitFail).raised = true ∧
    closeCount (verify_frontend envFrontendWaitFail).trace = 0 := by decide

/-- Claim C1 as amended: close is invoked exactly once on every run of
verify_frontend in which all steps succeed, and likewise on every
verify_visual_editor run that ends without an exception; when a step of
verify_frontend or of verify_visual_editor raises, the run ends with close
never invoked (cleanup is left to the context manager); verify_ui, whose
close sits in a finally clause, invokes close exactly once whenever launch
and page creation succeed, even if a later step raises. -/
theorem c1_close_invocation :
    (∀ env : Env, allOk env → closeCount (verify_frontend env).trace = 1) ∧
    (∀ env : Env, (verify_frontend env).raised = true →
      closeCount (verify_frontend env).trace = 0) ∧
    (∀ env : Env, (verify_visual_editor env).raised = false →
      closeCount (verify_visual_editor env).trace = 1) ∧
    (∀ env : Env, (verify_visual_editor env).raised = true →
      closeCount (verify_visual_editor env).trace = 0) ∧
    (∀ env : Env, env.loc.ok 0 = true → env.loc.ok 1 = true →
      closeCount (verify_ui env).trace = 1) := by
  refine ⟨?_, ?_, ?_, ?_, ?_⟩
  · intro env h
    have hr : (runItems env frontendItems initState).raised = false :=
      runItems_allOk env h.1 h.2 frontendItems initState (by decide) rfl
    have hc : closeCount (runItems env frontendItems initState).trace = 0 := by
      rw [runItems_closeCount]
      rfl
    rw [show verify_frontend env = closeAfter (runItems env frontendItems initState) from rfl,
      closeAfter_of_ok _ hr]
    show closeCount ((runItems env frontendItems initState).trace ++ [Event.closed]) = 1
    rw [closeCount_append, hc]
    rfl
  · intro env hr
    have hr' : (runItems env frontendItems initState).raised = true := by
      by_contra hx
      have hx' : (runItems env frontendItems initState).raised = false := by simpa using hx
      rw [show verify_frontend env = closeAfter (runItems env frontendItems initState) from rfl,
        closeAfter_of_ok _ hx'] at hr
      exact hx hr
    rw [show verify_frontend env = closeAfter (runItems env frontendItems initState) from rfl,
      closeAfter_of_raised _ hr', runItems_closeCount]
    rfl
  · intro env h
    have hst : (runItems env editorItems initState).raised = false := by
      rw [show (verify_visual_editor env).raised =
          (closeAfter (runItems env editorItems initState)).raised from rfl,
        closeAfter_keeps_raised] at h
      exact h
    rw [show verify_visual_editor env = closeAfter (runItems env editorItems initState) from rfl,
      closeAfter_of_ok _ hst]
    show closeCount ((runItems env editorItems initState).trace ++ [Event.closed]) = 1
    rw [closeCount_append, runItems_closeCount]
    rfl
  · intro env h
    have hst : (runItems env editorItems initState).raised = true := by
      rw [show (verify_visual_editor env).raised =
          (closeAfter (runItems env editorItems initState)).raised from rfl,
        closeAfter_keeps_raised] at h
      exact h
    rw [show verify_visual_editor env = closeAfter (runItems env editorItems initState) from rfl,
      closeAfter_of_raised _ hst, runItems_closeCount]
    rfl
  · intro env h0 h1
    have hc : closeCount (runItems env uiBody uiStart).trace = 0 := by
      rw [runItems_closeCount]
      rfl
    rw [verify_ui_eq env h0 h1]
    by_cases h3 : (runItems env uiBody uiStart).raised = true
    · rw [catchFinally_of_raised _ h3]
      show closeCount
        ((runItems env uiBody uiStart).trace ++ [Event.errPrinted, Event.closed]) = 1
      rw [closeCount_append, hc]
      rfl
    · have h3' : (runItems env uiBody uiStart).raised = false := by simpa using h3
      rw [catchFinally_of_ok _ h3']
      show closeCount ((runItems env uiBody uiStart).trace ++ [Event.closed]) = 1
      rw [closeCount_append, hc]
      rfl

/-- Claim C1 amended theorem, witnessed at concrete environments for all
three scripts. -/
theorem c1_close_invocation_witness :
    closeCount (verify_frontend envAllOk).trace = 1 ∧
    closeCount (verify_frontend envFrontendWaitFail).trace = 0 ∧
    closeCount (verify_visual_editor envAllOk).trace = 1 ∧
    closeCount (verify_visual_editor envLaunchFail).trace = 0 ∧
    closeCount (verify_ui envAllOk).trace = 1 :=
  ⟨c1_close_invocation.1 envAllOk ⟨fun _ => rfl, fun _ => rfl⟩,
   c1_close_invocation.2.1 envFrontendWaitFail (by decide),
   c1_close_invocation.2.2.1 envAllOk (by decide),
   c1_close_invocation.2.2.2.1 envLaunchFail (by decide),
   c1_close_invocation.2.2.2.2 envAllOk rfl rfl⟩

/-- Claim C2, counterexample: a verify_frontend run whose feng-shui wait fails
aborts with no screenshot ever attempted, although two screenshot steps are
placed after the failing step — evidence capture is not attempted after the
abort. -/
theorem c2_counterexample :
    (verify_frontend envFrontendWaitFail).raised = true ∧
    shotEvents (verify_frontend envFrontendWaitFail).trace = [] ∧
    ((actionsOf frontendItems).filter fun a => match a with
      | BAction.shot _ _ => true
      | _ => false).length = 2 := by decide

/-- Claim C2 as amended: once a step has raised, nothing further of the
scenario is attempted — screenshots included.  An aborted verify_frontend run
ends exactly at the failed step, and an aborted verify_ui body is followed
only by the error print of the except clause and the close of the finally
clause. -/
theorem c2_abort_behavior : ∀ env : Env,
    ((verify_frontend env).raised = true →
      ∃ t a, (verify_frontend env).trace = t ++ [Event.failed a]) ∧
    (env.loc.ok 0 = true → env.loc.ok 1 = true → 0 < failCount (verify_ui env).trace →
      ∃ t a, (verify_ui env).trace = t ++ [Event.failed a, Event.errPrinted, Event.closed]) := by
  intro env
  constructor
  · intro hr
    have hr' : (runItems env frontendItems initState).raised = true := by
      by_contra hx
      have hx' : (runItems env frontendItems initState).raised = false := by simpa using hx
      rw [show verify_frontend env = closeAfter (runItems env frontendItems initState) from rfl,
        closeAfter_of_ok _ hx'] at hr
      exact hx hr
    obtain ⟨pre, a, rest, hpre, htr⟩ := runItems_fail_decomp env frontendItems initState rfl hr'
    rw [show verify_frontend env = closeAfter (runItems env frontendItems initState) from rfl,
      closeAfter_of_raised _ hr']
    refine ⟨okEvents pre, a, ?_⟩
    rw [htr]
    simp [initState]
  · intro h0 h1 hf
    rw [verify_ui_eq env h0 h1] at hf ⊢
    by_cases h3 : (runItems env uiBody uiStart).raised = true
    · obtain ⟨pre, a, rest, hpre, htr⟩ := runItems_fail_decomp env uiBody uiStart rfl h3
      rw [catchFinally_of_raised _ h3]
      refine ⟨uiStart.trace ++ okEvents pre, a, ?_⟩
      show (runItems env uiBody uiStart).trace ++ [Event.errPrinted, Event.closed] = _
      rw [htr]
      simp
    · have h3' : (runItems env uiBody uiStart).raised = false := by simpa using h3
      exfalso
      rw [catchFinally_of_ok _ h3'] at hf
      have ht := runItems_ok_trace env uiBody uiStart rfl h3'
      have : failCount ((runItems env uiBody uiStart).trace ++ [Event.closed]) = 0 := by
        rw [failCount_append, ht, failCount_append]
        have h1' : failCount uiStart.trace = 0 := by decide
        have h2' : failCount (okEvents uiBody) = 0 := failCount_okEvents uiBody
        have h3'' : failCount [Event.closed] = 0 := by decide
        omega
      have hf' : 0 < failCount ((runItems env uiBody uiStart).trace ++ [Event.closed]) := hf
      omega

/-- Claim C2 amended theorem, witnessed: the aborted verify_ui run whose
tooltip wait timed out ends with the failed wait, the error print and the
close, and nothing else. -/
theorem c2_abort_behavior_witness :
    ∃ t a, (verify_ui envUiWaitFail).trace =
      t ++ [Event.failed a, Event.errPrinted, Event.closed] :=
  (c2_abort_behavior envUiWaitFail).2 rfl rfl (by decide)

/-- Claim C3, counterexample: a verify_ui run whose tooltip wait fails returns
normally — the single broad except around the whole run swallows the error —
and the run's only records are the progress prints made before the failure,
the failed-step event and the error print; no per-step tagged outcome
structure exists. -/
theorem c3_counterexample :
    (verify_ui envUiWaitFail).raised = false ∧
    failCount (verify_ui envUiWaitFail).trace = 1 ∧
    Event.failed (BAction.waitLoc "#tooltip-box" 2000) ∈ (verify_ui envUiWaitFail).trace ∧
    printedMsgs (verify_ui envUiWaitFail).trace =
      ["Checking Navigation...", "Checking Tooltips..."] := by decide

/-- Claim C3 as amended: the scripts build no Run Result; their observable
output is log lines and screenshot files only.  verify_ui wraps the whole run
in one broad catch: whenever launch and page creation succeed it returns
normally no matter what failed inside, and a failure inside the body is
recorded only by the single error print.  verify_frontend and
verify_visual_editor instead let the first error propagate and mask every
later step: any run of theirs with a recorded failure raises, with the failed
operation as the very last event of its trace. -/
theorem c3_error_reporting :
    (∀ env : Env, env.loc.ok 0 = true → env.loc.ok 1 = true →
      (verify_ui env).raised = false ∧
      (0 < failCount (verify_ui env).trace → Event.errPrinted ∈ (verify_ui env).trace)) ∧
    (∀ env : Env, 0 < failCount (verify_frontend env).trace →
      (verify_frontend env).raised = true ∧
      ∃ t a, (verify_frontend env).trace = t ++ [Event.failed a]) ∧
    (∀ env : Env, 0 < failCount (verify_visual_editor env).trace →
      (verify_visual_editor env).raised = true ∧
      ∃ t a, (verify_visual_editor env).trace = t ++ [Event.failed a]) := by
  refine ⟨?_, ?_, ?_⟩
  rotate_left
  · intro env hf
    exact closeAfter_run_fail env frontendItems hf
  · intro env hf
    exact closeAfter_run_fail env editorItems hf
  intro env h0 h1
  rw [verify_ui_eq env h0 h1]
  refine ⟨catchFinally_raised _, ?_⟩
  intro hf
  by_cases h3 : (runItems env uiBody uiStart).raised = true
  · rw [catchFinally_of_raised _ h3]
    show Event.errPrinted ∈ (runItems env uiBody uiStart).trace ++ [Event.errPrinted, Event.closed]
    simp
  · have h3' : (runItems env uiBody uiStart).raised = false := by simpa using h3
    exfalso
    rw [catchFinally_of_ok _ h3'] at hf
    have ht := runItems_ok_trace env uiBody uiStart rfl h3'
    have hz : failCount ((runItems env uiBody uiStart).trace ++ [Event.closed]) = 0 := by
      rw [failCount_append, ht, failCount_append]
      have h1' : failCount uiStart.trace = 0 := by decide
      have h2' : failCount (okEvents uiBody) = 0 := failCount_okEvents uiBody
      have h3'' : failCount [Event.closed] = 0 := by decide
      omega
    have hf' : 0 < failCount ((runItems env uiBody uiStart).trace ++ [Event.closed]) := hf
    omega

/-- Claim C3 amended theorem, witnessed at the tooltip-timeout environment
for verify_ui and at failing environments for the other two scripts. -/
theorem c3_error_reporting_witness :
    ((verify_ui envUiWaitFail).raised = false ∧
     Event.errPrinted ∈ (verify_ui envUiWaitFail).trace) ∧
    (verify_frontend envFrontendWaitFail).raised = true ∧
    (verify_visual_editor envLaunchFail).raised = true :=
  ⟨⟨(c3_error_reporting.1 envUiWaitFail rfl rfl).1,
    (c3_error_reporting.1 envUiWaitFail rfl rfl).2 (by decide)⟩,
   (c3_error_reporting.2.1 envFrontendWaitFail (by decide)).1,
   (c3_error_reporting.2.2 envLaunchFail (by decide)).1⟩

theorem shotsDone_append (t u : List Event) :
    shotsDone (t ++ u) = shotsDone t ++ shotsDone u := by
  simp [shotsDone]

/-- Claim C4, counterexample: in the run where the feng-shui wait succeeded
but the later divination wait failed, the screenshot was captured (artifact
list non-empty) yet the execution aborts with the exception propagating and
close never invoked — succeeding at the feng-shui wait does not put the
scenario into Completed. -/
theorem c4_counterexample :
    Event.did (BAction.waitFn fsWaitExpr) ∈ (verify_frontend envDivinationWaitFail).trace ∧
    shotsDone (verify_frontend envDivinationWaitFail).trace =
      ["/home/jules/verification/feng_shui_dashboard.png"] ∧
    (verify_frontend envDivinationWaitFail).raised = true ∧
    closeCount (verify_frontend envDivinationWaitFail).trace = 0 := by decide

/-- Claim C4 as amended: verify_frontend performs the feng-shui interaction
(fill "2024", fill "180", check the option, trigger the run, await the
analysis marker) in that order; a run in which every step succeeds — the
feng-shui wait among them — runs to completion with both screenshots in its
artifact list.  Succeeding at the wait alone does not suffice: the run is
complete only once the later divination steps also succeed, though the
feng-shui screenshot is already captured either way. -/
theorem c4_fengshui_flow :
    isSubseqB fengShuiActions (actionsOf frontendItems) = true ∧
    shotsDone (okEvents frontendItems) =
      ["/home/jules/verification/feng_shui_dashboard.png",
       "/home/jules/verification/divination_result.png"] ∧
    ∀ env : Env, allOk env →
      (verify_frontend env).trace = okEvents frontendItems ++ [Event.closed] ∧
      (verify_frontend env).raised = false := by
  refine ⟨by decide, by decide, ?_⟩
  intro env h
  have hr : (runItems env frontendItems initState).raised = false :=
    runItems_allOk env h.1 h.2 frontendItems initState (by decide) rfl
  have ht := runItems_ok_trace env frontendItems initState rfl hr
  rw [show verify_frontend env = closeAfter (runItems env frontendItems initState) from rfl,
    closeAfter_of_ok _ hr]
  constructor
  · show (runItems env frontendItems initState).trace ++ [Event.closed] = _
    rw [ht]
    simp [initState]
  · exact hr

/-- Claim C4 amended theorem, witnessed at the all-success environment. -/
theorem c4_fengshui_flow_witness :
    (verify_frontend envAllOk).trace = okEvents frontendItems ++ [Event.closed] ∧
    (verify_frontend envAllOk).raised = false :=
  c4_fengshui_flow.2.2 envAllOk ⟨fun _ => rfl, fun _ => rfl⟩

/-- Claim C5 (spec-modelled, since no script under src/ exercises the
decision-tree flow): the modelled catalog entry navigates to the app, switches
to tree input mode, loads the example template, triggers simulation, awaits a
result region containing "Winner:" with a 10000 ms timeout, and captures a
full-page screenshot; under the modelled runner a behavior in which every step
is ok yields the Run Result with all six outcomes ok and final state
Completed. -/
theorem c5_decision_tree_flow :
    decisionTreeFlow.map SpecStep.action =
      [SpecAction.navigate "http://localhost:3000", SpecAction.setInputMode "tree",
       SpecAction.loadExampleTemplate, SpecAction.triggerSimulation,
       SpecAction.assertTextContains "result region" "Winner:",
       SpecAction.screenshotFullPage "verification/decision_tree.png"] ∧
    decisionTreeFlow.map SpecStep.timeoutMs = [30000, 30000, 30000, 30000, 10000, 30000] ∧
    ∀ env : Nat → SpecStatus, (∀ i, env i = SpecStatus.ok) →
      runSpecScenario env decisionTreeFlow 0 =
        ([SpecStatus.ok, SpecStatus.ok, SpecStatus.ok,
          SpecStatus.ok, SpecStatus.ok, SpecStatus.ok], SpecFinal.Completed) := by
  refine ⟨rfl, rfl, ?_⟩
  intro env h
  simp [runSpecScenario, decisionTreeFlow, h]

/-- Claim C5 theorem, witnessed at the all-ok behavior. -/
theorem c5_decision_tree_flow_witness :
    runSpecScenario (fun _ => SpecStatus.ok) decisionTreeFlow 0 =
      ([SpecStatus.ok, SpecStatus.ok, SpecStatus.ok,
        SpecStatus.ok, SpecStatus.ok, SpecStatus.ok], SpecFinal.Completed) :=
  c5_decision_tree_flow.2.2 (fun _ => SpecStatus.ok) (fun _ => rfl)

/-- Claim C6, counterexample: the claim's reading — a passing editor run
implies the node-card count increased — is false: in a world where the card
count is 3 both before and after the Add-Node click, every assertion of the
script passes (the script only checks that the post-add count is at least 2
and never reads the pre-add count). -/
theorem c6_counterexample : ¬ editorAssertsIncrease := by
  intro h
  have hx := h { cardsBeforeAdd := 3, cardsAfterAdd := 3 } (by decide)
  simp at hx

/-- Claim C6 as amended: verify_visual_editor switches to visual mode, adds a
node, then asserts the node-card count is at least 2 — an absolute bound on
the post-add count, satisfied if and only if at least two cards are present
after the click, independent of the never-queried pre-add count. -/
theorem c6_editor_assertion :
    isSubseqB
      [BAction.click "input[value=\x27visual\x27]",
       BAction.click "button:has-text(\x27+ Add Node\x27)",
       BAction.countAssertGe ".node-card" 2]
      (actionsOf editorItems) = true ∧
    ∀ w : EditorWorld,
      ((verify_visual_editor (editorEnvOf w)).raised = false ↔ 2 ≤ w.cardsAfterAdd) := by
  refine ⟨by decide, ?_⟩
  intro w
  by_cases h : 2 ≤ w.cardsAfterAdd
  · simp [verify_visual_editor, closeAfter, runItems, stepAct, actOk, actUsesApp, actCountReq,
      editorEnvOf, editorItems, initState, isHttpUrl, h]
  · simp [verify_visual_editor, closeAfter, runItems, stepAct, actOk, actUsesApp, actCountReq,
      editorEnvOf, editorItems, initState, isHttpUrl, h]

/-- Claim C7, counterexample: not every catalog entry reaches its target only
by HTTP navigation to the configured base URL — verify.py writes a file of its
own and navigates to a file URL. -/
theorem c7_counterexample :
    (scenarioCatalog.all fun s => httpOnlyInteraction s.2) = false ∧
    httpOnlyInteraction pyItems = false ∧
    gotoUrls pyItems = ["file:///app/verification/dummy.html"] := by decide

/-- Claim C7 as amended: verify_frontend, verify_visual_editor and verify_ui
navigate exactly once each, to http://localhost:3000 or http://127.0.0.1:3000,
and perform no interaction outside the element/click/fill/check/wait
repertoire; verify.py instead writes its own placeholder HTML file and
navigates to that file URL, never contacting the application. -/
theorem c7_navigation_targets :
    httpOnlyInteraction frontendItems = true ∧
    httpOnlyInteraction editorItems = true ∧
    httpOnlyInteraction uiItems = true ∧
    httpOnlyInteraction pyItems = false ∧
    gotoUrls frontendItems = ["http://localhost:3000"] ∧
    gotoUrls editorItems = ["http://localhost:3000"] ∧
    gotoUrls uiItems = ["http://127.0.0.1:3000"] ∧
    gotoUrls pyItems = ["file:///app/verification/dummy.html"] := by decide

/-- Claim C8, counterexample: in a run of verify_visual_editor where the
Add-Node click's locator resolved to two elements and every operation
succeeded, nothing is printed at all — no warning about the ambiguous
selector is logged. -/
theorem c8_counterexample :
    1 < envEditorAmbiguous.app.matchCount 3 ∧
    (verify_visual_editor envEditorAmbiguous).raised = false ∧
    printedMsgs (verify_visual_editor envEditorAmbiguous).trace = [] := by decide

/-- Claim C8 as amended: the scripts delegate element selection to the
browser-automation library and never log ambiguity warnings of their own:
verify_visual_editor behaves identically whatever the match multiplicities
are, and it prints nothing on any run whatsoever. -/
theorem c8_no_ambiguity_warning :
    (∀ (env : Env) (m : Nat → Nat),
      verify_visual_editor { env with app := { env.app with matchCount := m } } =
        verify_visual_editor env) ∧
    (∀ env : Env, printedMsgs (verify_visual_editor env).trace = []) := by
  constructor
  · intro env m
    rw [show verify_visual_editor { env with app := { env.app with matchCount := m } } =
        closeAfter (runItems { env with app := { env.app with matchCount := m } }
          editorItems initState) from rfl,
      runItems_matchCount_irrel]
    rfl
  · intro env
    by_cases h : (runItems env editorItems initState).raised = true
    · obtain ⟨pre, a, rest, hpre, htr⟩ := runItems_fail_decomp env editorItems initState rfl h
      have hp : printsOfItems editorItems = [] := by decide
      have hsplit : printsOfItems pre ++ printsOfItems (Item.act a :: rest) = [] := by
        rw [← printsOfItems_append, ← hpre, hp]
      have hpre0 : printsOfItems pre = [] := (List.append_eq_nil.mp hsplit).1
      rw [show verify_visual_editor env = closeAfter (runItems env editorItems initState) from rfl,
        closeAfter_of_raised _ h, htr, printedMsgs_append, printedMsgs_append,
        printedMsgs_okEvents, hpre0]
      simp [printedMsgs, initState]
    · have h' : (runItems env editorItems initState).raised = false := by simpa using h
      have ht := runItems_ok_trace env editorItems initState rfl h'
      rw [show verify_visual_editor env = closeAfter (runItems env editorItems initState) from rfl,
        closeAfter_of_ok _ h']
      show printedMsgs ((runItems env editorItems initState).trace ++ [Event.closed]) = []
      rw [ht, printedMsgs_append, printedMsgs_append, printedMsgs_okEvents]
      simp [printedMsgs, initState]
      decide

theorem stepAct_launch_ok (env : Env) (h0 : env.loc.ok 0 = true) :
    stepAct env initState BAction.launch = uiAfterLaunch := by
  have e : stepAct env initState BAction.launch =
      { trace := [if env.loc.ok 0 then Event.did BAction.launch else Event.failed BAction.launch],
        localIdx := 1, appIdx := 0, onApp := false, raised := !env.loc.ok 0 } := rfl
  rw [e, h0]
  simp [uiAfterLaunch]

/-- Claim C9, counterexample: a failure launching the browser — a behavior of
the browser — happens before verify_ui's try-block and propagates to the
caller. -/
theorem c9_counterexample :
    (verify_ui envLaunchFail).raised = true ∧
    Event.failed BAction.launch ∈ (verify_ui envLaunchFail).trace := by decide

/-- Claim C9 as amended: verify_ui propagates an exception exactly when
launching the browser or creating the page fails — those two operations sit
before the try-block; every failure of the scenario steps inside the try-block
is caught, so with launch and page creation succeeding the function always
returns normally. -/
theorem c9_exception_scope : ∀ env : Env,
    ((verify_ui env).raised = true ↔ (env.loc.ok 0 = false ∨ env.loc.ok 1 = false)) := by
  intro env
  have eDef : verify_ui env =
      (if (stepAct env initState BAction.launch).raised then stepAct env initState BAction.launch
       else
         if (stepAct env (stepAct env initState BAction.launch) BAction.newPage).raised then
           stepAct env (stepAct env initState BAction.launch) BAction.newPage
         else catchFinally (runItems env uiBody
           (stepAct env (stepAct env initState BAction.launch) BAction.newPage))) := rfl
  by_cases h0 : env.loc.ok 0 = true
  · have s1 : stepAct env initState BAction.launch = uiAfterLaunch := stepAct_launch_ok env h0
    by_cases h1 : env.loc.ok 1 = true
    · rw [verify_ui_eq env h0 h1, catchFinally_raised]
      simp [h0, h1]
    · have h1' : env.loc.ok 1 = false := by simpa using h1
      have hr2 : (stepAct env uiAfterLaunch BAction.newPage).raised = true := by
        have e2 : (stepAct env uiAfterLaunch BAction.newPage).raised = !env.loc.ok 1 := rfl
        rw [e2, h1']
        rfl
      rw [eDef, s1, if_neg (by decide : ¬ (uiAfterLaunch.raised = true)), if_pos hr2, hr2]
      simp [h1']
  · have h0' : env.loc.ok 0 = false := by simpa using h0
    have hr1 : (stepAct env initState BAction.launch).raised = true := by
      have e1 : (stepAct env initState BAction.launch).raised = !env.loc.ok 0 := rfl
      rw [e1, h0']
      rfl
    rw [eDef, if_pos hr1, hr1]
    simp [h0']

/-- Claim C10 (confirmed): the observable outcome of verify.py is independent
of the application's state — its run never consults the application-page
oracle, because its single navigation goes to the file URL of the placeholder
page it wrote itself, so two runs against arbitrarily different application
states are equal in full. -/
theorem c10_app_state_independence :
    (∀ (lo a1 a2 : Oracle),
      verify_py { loc := lo, app := a1 } = verify_py { loc := lo, app := a2 }) ∧
    gotoUrls pyItems = ["file:///app/verification/dummy.html"] ∧
    Item.act (BAction.writeFile "verification/dummy.html" dummyHtml) ∈ pyItems := by
  refine ⟨?_, by decide, by decide⟩
  intro lo a1 a2
  rfl
